import Mathlib

/-!
Shallow embedding of the Crossposter application core, translated from the
repository sources:

* `src/unnamed/part_000` — `ComposeScreen` (the latest compose screen with
  Bluesky support): `pickMedia`, `triggerEarlyUpload`, the text-length
  effect, and `handlePost`.
* `src/unnamed/part_002` — `TwitterService` (the latest `twitter.ts`):
  `uploadMedia`'s chunked APPEND scheduler and `checkStatus`.
* `src/src/utils/bluesky.ts` — `BlueskyService`: `login`, `uploadBlob`,
  `post`.

External effects (network calls, file reads) are modelled by explicit
oracle parameters giving each call's result, and every outgoing call is
recorded in a log so that theorems can speak about which endpoints were
reached.  JavaScript string truthiness (`""` is falsy, `null` is falsy)
is modelled explicitly where the source relies on it.
-/

namespace Crossposter

/-- JavaScript truthiness of a `string | null` value: `null` and `""` are
falsy, every other string is truthy. -/
def strTruthy : Option String → Bool
  | none => false
  | some s => !s.isEmpty

/-- The `asset.type` field of an `expo-image-picker` asset. -/
inductive MediaKind
  | image
  | video
deriving DecidableEq, Repr

/-- A picked media asset: the fields of `ImagePicker.ImagePickerAsset` the
code reads (`uri`, `type`, `mimeType`).  `kind` embeds the `type` field. -/
structure MediaAsset where
  uri : String
  kind : MediaKind
  mimeType : Option String
deriving DecidableEq, Repr

/-- `asset.mimeType || (asset.type === 'video' ? 'video/mp4' : 'image/jpeg')`
(part_000 lines 110, 129, 179, 197, 201): JS `||` falls through on a falsy
(missing or empty) mime type. -/
def inferredMime (a : MediaAsset) : String :=
  match a.mimeType with
  | some m => if m.isEmpty then (if a.kind = .video then "video/mp4" else "image/jpeg") else m
  | none => if a.kind = .video then "video/mp4" else "image/jpeg"

/-- The `Credentials` interface of part_000: values loaded from
`AsyncStorage.multiGet`, each possibly `null`. -/
structure Credentials where
  apiKey : Option String
  apiSecret : Option String
  accessToken : Option String
  accessSecret : Option String
  blueskyHandle : Option String
  blueskyPassword : Option String
deriving DecidableEq, Repr

/-- A Bluesky session as returned by `com.atproto.server.createSession`
(`bluesky.ts` interface `BlueskySession`). -/
structure BlueskySession where
  did : String
  accessJwt : String
  refreshJwt : String
  handle : String
deriving DecidableEq, Repr

/-- A Bluesky blob descriptor as returned by `uploadBlob`
(`bluesky.ts` interface `BlueskyBlob`); the `ref.$link` field is `link`. -/
structure BlueskyBlob where
  link : String
  mimeType : String
  size : Nat
deriving DecidableEq, Repr

/-- The `ComposeScreen` React state (part_000 lines 29-40) relevant to
posting: `text`, `media`, the cached upload handles `twitterMediaId` and
`blueskyBlob`, the Bluesky toggle pair, and the two busy flags. -/
structure ComposerState where
  text : String
  media : Option MediaAsset
  twitterMediaId : Option String
  blueskyBlob : Option BlueskyBlob
  blueskyEnabled : Bool
  blueskyForceDisabled : Bool
  isMediaUploading : Bool
  uploading : Bool
deriving DecidableEq, Repr

/-- The text-length `useEffect` (part_000 lines 51-61): after the effect
runs, `blueskyForceDisabled` is `true` exactly when the text exceeds 300
characters, whatever its previous value was. -/
def runTextLengthEffect (text : String) (prev : Bool) : Bool :=
  if text.length > 300 then true
  else if prev then false else prev

/-- Modelled from the spec (§4.5): the spec's eligibility rule for the
secondary destination — "automatically disabled whenever the asset is a
video (unsupported) or text length exceeds a fixed limit".  Stated here
only to be compared against the code's `runTextLengthEffect`, which is the
embedding of the actual source. -/
def specSecondaryDisabled (media : Option MediaAsset) (text : String) : Bool :=
  (match media with
   | some a => a.kind = .video
   | none => false) || text.length > 300

/-- The outgoing network calls `handlePost` can issue, in the order they
are issued. -/
inductive Call
  | twUploadMedia
  | twPostTweet
  | bskyLogin
  | bskyUploadBlob
  | bskyCreateRecord
deriving DecidableEq, Repr

/-- The `Alert.alert` outcome surfaced by `handlePost`.  `bskyFailed`
stands for the alert shown when Twitter succeeded and the Bluesky half
threw (the source's partial-success alert); `successTwitterOnly` stands
for the success alert of the no-Bluesky branch. -/
inductive AlertMsg
  | emptyTweet
  | uploadingMedia
  | missingCredentials
  | successBoth
  | successTwitterOnly
  | bskyFailed
  | errorFailed
deriving DecidableEq, Repr

/-- Results of the external calls `handlePost` may make, one oracle per
call site (each call site runs at most once per `handlePost` execution). -/
structure PostEnv where
  uploadMedia : Except String String
  postTweet : Except String Unit
  bskyLogin : Except String BlueskySession
  bskyUploadBlob : Except String BlueskyBlob
  bskyPost : Except String Unit
deriving Repr

/-- Result of one `handlePost` execution: the alert shown, the resulting
component state, the network calls issued (in order), and whether the
screen navigated to Settings. -/
structure HandlePostResult where
  alert : AlertMsg
  state : ComposerState
  calls : List Call
  navigatedToSettings : Bool
deriving DecidableEq, Repr

/-- The state reset performed after a successful post (part_000
lines 212-215), together with the `finally` clearing of `uploading`. -/
def resetState (s : ComposerState) : ComposerState :=
  { s with text := "", media := none, twitterMediaId := none,
           blueskyBlob := none, uploading := false }

/-- The Bluesky half of `handlePost` (part_000 lines 188-210), reached
only after `postTweet` succeeded.  The guard mirrors
`blueskyEnabled && !blueskyForceDisabled && credentials.blueskyHandle &&
credentials.blueskyPassword`; the body mirrors the inner try/catch around
`login`, the conditional `uploadBlob` retry (`media && !finalBlob`), and
`post`.  Any throw inside lands in the catch that shows the
partial-success alert (`bskyFailed`). -/
def blueskyPhase (c : Credentials) (env : PostEnv) (s : ComposerState) :
    AlertMsg × List Call :=
  if s.blueskyEnabled && !s.blueskyForceDisabled
      && strTruthy c.blueskyHandle && strTruthy c.blueskyPassword then
    match env.bskyLogin with
    | .error _ => (.bskyFailed, [.bskyLogin])
    | .ok _ =>
      if s.media.isSome && s.blueskyBlob.isNone then
        match env.bskyUploadBlob with
        | .error _ => (.bskyFailed, [.bskyLogin, .bskyUploadBlob])
        | .ok _ =>
          match env.bskyPost with
          | .error _ => (.bskyFailed, [.bskyLogin, .bskyUploadBlob, .bskyCreateRecord])
          | .ok _ => (.successBoth, [.bskyLogin, .bskyUploadBlob, .bskyCreateRecord])
      else
        match env.bskyPost with
        | .error _ => (.bskyFailed, [.bskyLogin, .bskyCreateRecord])
        | .ok _ => (.successBoth, [.bskyLogin, .bskyCreateRecord])
  else (.successTwitterOnly, [])

/-- The Twitter media phase of `handlePost` (part_000 lines 172-183):
with no media there is nothing to upload; with media, the cached
`twitterMediaId` from the early upload is reused, else `uploadMedia` is
retried inline and its throw reaches `handlePost`'s outer catch.  Returns
the calls issued and either the media-id list or the propagated error. -/
def twitterUploadPhase (env : PostEnv) (s : ComposerState) :
    List Call × Except String (List String) :=
  match s.media with
  | none => ([], .ok [])
  | some _ =>
    match s.twitterMediaId with
    | some id => ([], .ok [id])
    | none =>
      match env.uploadMedia with
      | .error e => ([.twUploadMedia], .error e)
      | .ok id => ([.twUploadMedia], .ok [id])

/-- `handlePost` (part_000 lines 144-223).  Guard order is the source's:
empty-content check, then the `isMediaUploading` refusal, then the
missing-credentials redirect; then the Twitter media phase (reuse the
cached `twitterMediaId` or retry `uploadMedia` inline), `postTweet`, the
Bluesky phase, and the state reset.  A throw in `uploadMedia` or
`postTweet` reaches the outer catch (`errorFailed`) leaving the composer
fields untouched; the `finally` clears `uploading`. -/
def handlePost (creds : Option Credentials) (env : PostEnv) (s : ComposerState) :
    HandlePostResult :=
  if s.text.isEmpty && s.media.isNone then
    ⟨.emptyTweet, s, [], false⟩
  else if s.isMediaUploading then
    ⟨.uploadingMedia, s, [], false⟩
  else
    match creds with
    | none => ⟨.missingCredentials, { s with uploading := false }, [], true⟩
    | some c =>
      if !(strTruthy c.apiKey && strTruthy c.apiSecret
            && strTruthy c.accessToken && strTruthy c.accessSecret) then
        ⟨.missingCredentials, { s with uploading := false }, [], true⟩
      else
        match twitterUploadPhase env s with
        | (cs, .error _) => ⟨.errorFailed, { s with uploading := false }, cs, false⟩
        | (cs, .ok _) =>
          match env.postTweet with
          | .error _ =>
            ⟨.errorFailed, { s with uploading := false }, cs ++ [.twPostTweet], false⟩
          | .ok _ =>
            let bp := blueskyPhase c env s
            ⟨bp.1, resetState s, cs ++ [.twPostTweet] ++ bp.2, false⟩

/-!
## The compose-screen event machine (pickMedia / triggerEarlyUpload)

`pickMedia` (part_000 lines 75-93) stores the new asset, clears the cached
handles, and fires `triggerEarlyUpload`, whose completion handlers write
`setTwitterMediaId(id)` / `setBlueskyBlob(blob)` **unconditionally**
(lines 111-137) — there is no generation/staleness comparison anywhere.
To let theorems even *talk* about staleness, each launched upload task is
tagged with a ghost `selection` number (incremented per successful pick);
the tag plays no role in the transition function, exactly as in the
source, where the completion closures ignore which selection they came
from.
-/

/-- Composer state plus the ghost bookkeeping of in-flight early uploads:
`selection` counts successful media picks (the "current generation");
`pendingTw`/`pendingBsky` hold the selection tags of the not-yet-settled
early Twitter/Bluesky uploads. -/
structure ComposeModel where
  comp : ComposerState
  selection : Nat
  pendingTw : List Nat
  pendingBsky : List Nat
deriving DecidableEq, Repr

/-- Asynchronous events of the compose screen: a successful media pick
(`pickMedia`'s non-canceled branch), and the settling of an early Twitter
or Bluesky upload that was launched by selection `sel`. -/
inductive ComposeEvent
  | pickMedia (asset : MediaAsset)
  | twitterUploadSettled (sel : Nat) (result : Except String String)
  | blueskyUploadSettled (sel : Nat) (result : Except String BlueskyBlob)
deriving Repr

/-- One event transition of the compose screen, given the (non-null)
loaded credentials.

* `pickMedia a` — lines 82-92: set `media`, clear both cached handles,
  then `triggerEarlyUpload` (lines 95-142): set `isMediaUploading`, and
  launch the Twitter task if the Twitter credentials are truthy and the
  Bluesky task if the Bluesky credentials are truthy and the toggle is on.
* `twitterUploadSettled sel r` — the `.then`/`.catch` pair of lines
  112-119: on success `setTwitterMediaId(id)` with **no** check of `sel`
  against the current selection; on failure only a log.
* `blueskyUploadSettled sel r` — lines 126-137, likewise unconditional.

When the settling task was the last pending task of *its own*
`triggerEarlyUpload` call (its `Promise.all`), `isMediaUploading` is set
back to `false` (line 141) — even if a later selection still has uploads
in flight. -/
def applyCompose (c : Credentials) (m : ComposeModel) : ComposeEvent → ComposeModel
  | .pickMedia _a =>
    let sel := m.selection + 1
    let launchTw := strTruthy c.apiKey && strTruthy c.accessToken
    let launchBsky := strTruthy c.blueskyHandle && strTruthy c.blueskyPassword
        && m.comp.blueskyEnabled && !m.comp.blueskyForceDisabled
    { comp := { m.comp with
                media := some _a, twitterMediaId := none,
                blueskyBlob := none, isMediaUploading := true },
      selection := sel,
      pendingTw := if launchTw then m.pendingTw ++ [sel] else m.pendingTw,
      pendingBsky := if launchBsky then m.pendingBsky ++ [sel] else m.pendingBsky }
  | .twitterUploadSettled sel r =>
    if sel ∈ m.pendingTw then
      let pendingTw := m.pendingTw.erase sel
      let stillUploading := sel ∈ pendingTw || sel ∈ m.pendingBsky
      let comp :=
        match r with
        | .ok id => { m.comp with twitterMediaId := some id }
        | .error _ => m.comp
      { m with
        comp := if stillUploading then comp else { comp with isMediaUploading := false },
        pendingTw := pendingTw }
    else m
  | .blueskyUploadSettled sel r =>
    if sel ∈ m.pendingBsky then
      let pendingBsky := m.pendingBsky.erase sel
      let stillUploading := sel ∈ m.pendingTw || sel ∈ pendingBsky
      let comp :=
        match r with
        | .ok blob => { m.comp with blueskyBlob := some blob }
        | .error _ => m.comp
      { m with
        comp := if stillUploading then comp else { comp with isMediaUploading := false },
        pendingBsky := pendingBsky }
    else m

/-- The compose screen's initial state (part_000 lines 29-40). -/
def initCompose : ComposeModel :=
  { comp := { text := "", media := none, twitterMediaId := none,
              blueskyBlob := none, blueskyEnabled := true,
              blueskyForceDisabled := false, isMediaUploading := false,
              uploading := false },
    selection := 0, pendingTw := [], pendingBsky := [] }

/-- Run a sequence of compose-screen events from the initial state. -/
def runCompose (c : Credentials) (es : List ComposeEvent) : ComposeModel :=
  es.foldl (applyCompose c) initCompose

/-!
## The chunked APPEND scheduler of `TwitterService.uploadMedia`

part_002 lines 93-176.  `queueNextChunk` fills the in-flight pool up to
`maxConcurrentAppends`, carving consecutive chunks of `chunkSize` bytes
(last chunk truncated) and stamping each with its `segment_index`; the
drive loop `while (inFlight.length > 0) { await Promise.race(inFlight);
queueNextChunk(); }` re-fills the pool after each completion.  A rejected
chunk promise makes `Promise.race` throw: the loop is abandoned, the
error propagates out of `uploadMedia`, and no further chunk is scheduled —
but nothing signals cancellation to the chunks still in flight (the only
abort signal, `options?.signal`, belongs to the caller and is never fired
by `uploadMedia` itself); their promises simply settle unobserved (each
`promise.finally` still removes it from `inFlight`).

The model is an event machine: the chunk parameters are computed exactly
as in the source from the sequential `offset`/`segmentIndex` counters, and
an adversarial event list chooses the order in which in-flight chunks
settle and whether each APPEND succeeds or fails.
-/

/-- One APPEND chunk: its `segment_index`, byte offset, and byte length. -/
structure Chunk where
  seg : Nat
  off : Nat
  len : Nat
deriving DecidableEq, Repr

/-- `chunkSize` (part_002 lines 95-97): 5 MiB for big video, else 2 MiB. -/
def appendChunkSize (isVideo : Bool) (totalBytes : Nat) : Nat :=
  if isVideo && totalBytes > 50 * 1024 * 1024 then 5 * 1024 * 1024
  else 2 * 1024 * 1024

/-- `maxConcurrentAppends` (part_002 line 98): 4 for big video, else 2. -/
def maxConcurrentAppends (isVideo : Bool) (totalBytes : Nat) : Nat :=
  if isVideo && totalBytes > 50 * 1024 * 1024 then 4 else 2

/-- State of the APPEND drive loop.  `scheduled` records every chunk ever
queued (in queue order), `completed` the chunks whose APPEND succeeded,
`failed` the first chunk whose APPEND rejected (after which the loop has
thrown), and `abortSignaled` whether `uploadMedia` itself ever signalled
cancellation to in-flight APPEND calls — the source has no such signal,
so no transition sets it. -/
structure UploadLoopState where
  offset : Nat
  segmentIndex : Nat
  inFlight : List Chunk
  scheduled : List Chunk
  completed : List Chunk
  failed : Option Chunk
  abortSignaled : Bool
deriving DecidableEq, Repr

/-- `queueNextChunk` (part_002 lines 109-162): while bytes remain and the
pool is not full, queue the chunk at `offset` of length
`min chunkSize (totalBytes - offset)` with the next `segmentIndex`.  The
`fuel` argument only bounds the recursion; `totalBytes + 1` is always
enough since each iteration advances `offset` by at least one byte. -/
def queueNextChunk (tb cs mc : Nat) : Nat → UploadLoopState → UploadLoopState
  | 0, s => s
  | fuel + 1, s =>
    if s.offset < tb ∧ s.inFlight.length < mc then
      let len := min cs (tb - s.offset)
      let c : Chunk := ⟨s.segmentIndex, s.offset, len⟩
      queueNextChunk tb cs mc fuel
        { s with offset := s.offset + len, segmentIndex := s.segmentIndex + 1,
                 inFlight := s.inFlight ++ [c], scheduled := s.scheduled ++ [c] }
    else s

/-- A settling event of an in-flight chunk, chosen adversarially: the
chunk with the given segment index completes its APPEND successfully, or
its APPEND rejects. -/
inductive ChunkEvent
  | complete (seg : Nat)
  | fail (seg : Nat)
deriving DecidableEq, Repr

/-- One settling step of the drive loop.  While no failure has occurred, a
completion refills the pool via `queueNextChunk` (the `await
Promise.race` / `queueNextChunk()` cycle); a failure records the error
and abandons the loop.  After a failure, settling chunks are merely
removed from `inFlight` (their `promise.finally`): nothing is scheduled,
and no abort is signalled to the survivors. -/
def stepChunk (tb cs mc : Nat) (s : UploadLoopState) : ChunkEvent → UploadLoopState
  | .complete seg =>
    match s.inFlight.find? (fun c => c.seg == seg) with
    | none => s
    | some c =>
      let s' := { s with inFlight := s.inFlight.eraseP (fun c2 => c2.seg == seg),
                         completed := s.completed ++ [c] }
      if s.failed.isSome then s'
      else queueNextChunk tb cs mc (tb + 1) s'
  | .fail seg =>
    match s.inFlight.find? (fun c => c.seg == seg) with
    | none => s
    | some c =>
      let s' := { s with inFlight := s.inFlight.eraseP (fun c2 => c2.seg == seg) }
      if s.failed.isSome then s' else { s' with failed := some c }

/-- The loop state before any chunk settles: counters zeroed, then the
initial `queueNextChunk()` call (part_002 line 164). -/
def initChunkState : UploadLoopState :=
  ⟨0, 0, [], [], [], none, false⟩

/-- Run the APPEND drive loop under an adversarial settling order. -/
def runChunkLoop (tb cs mc : Nat) (es : List ChunkEvent) : UploadLoopState :=
  es.foldl (stepChunk tb cs mc) (queueNextChunk tb cs mc (tb + 1) initChunkState)

/-- The outcome `uploadMedia`'s APPEND phase reports to its caller: the
first chunk rejection propagates (part_002 lines 166-169 and 213-216),
otherwise the phase succeeds. -/
def appendLoopResult (s : UploadLoopState) : Except String Unit :=
  match s.failed with
  | some _ => .error "APPEND failed"
  | none => .ok ()

/-- The pure chunk partition determined by the source's `offset` /
`segmentIndex` recurrence: chunk `k` starts at `k * cs` and carries
`min cs (tb - off)` bytes. -/
def chunkPlanGo (tb cs : Nat) : Nat → Nat → Nat → List Chunk
  | 0, _, _ => []
  | fuel + 1, off, seg =>
    if off < tb then
      ⟨seg, off, min cs (tb - off)⟩ :: chunkPlanGo tb cs fuel (off + min cs (tb - off)) (seg + 1)
    else []

/-- The full chunk partition of `[0, tb)` into `cs`-byte chunks. -/
def chunkPlan (tb cs : Nat) : List Chunk :=
  chunkPlanGo tb cs (tb + 1) 0 0

/-- `chainFromB tb off seg l` holds when `l` is an exact gap-free,
overlap-free partition of the byte range `[off, tb)` whose segment
indices are consecutive starting at `seg` and whose chunks are all
non-empty. -/
def chainFromB (tb : Nat) : Nat → Nat → List Chunk → Bool
  | off, _, [] => off == tb
  | off, seg, c :: rest =>
    c.off == off && c.seg == seg && decide (0 < c.len)
      && chainFromB tb (off + c.len) (seg + 1) rest

/-!
## `TwitterService.checkStatus` (part_002 lines 219-250)

The STATUS poll loop modelled over the sequence of `processing_info`
payloads the server returns, one per poll.  The loop breaks at the first
terminal state (`succeeded`/`failed`) without sleeping; otherwise it
sleeps `check_after_secs || 1` seconds and polls again.  After the loop,
the `failed` state is re-thrown as an error.  `check_after_secs` is the
server's integer number of seconds (possibly absent).
-/

/-- One `processing_info` payload of a STATUS response. -/
structure ProcessingInfo where
  state : String
  check_after_secs : Option Nat
deriving DecidableEq, Repr

/-- `processingInfo.check_after_secs || 1` — JS `||` replaces a missing or
zero value by 1. -/
def pollDelaySecs : Option Nat → Nat
  | none => 1
  | some n => if n = 0 then 1 else n

/-- Whether a processing state is terminal (part_002 lines 238, 245). -/
def isTerminalState (st : String) : Bool :=
  st == "succeeded" || st == "failed"

/-- The poll loop over the server's successive `processing_info` payloads:
returns the list of sleeps taken (in seconds, in order) and the final
result.  An exhausted response list (the real loop would still be
polling) is reported as an error and occurs in no theorem below. -/
def checkStatusRun : List ProcessingInfo → List Nat × Except String Unit
  | [] => ([], .error "poll responses exhausted")
  | p :: rest =>
    if isTerminalState p.state then
      ([], if p.state == "failed" then .error "Media processing failed" else .ok ())
    else
      let r := checkStatusRun rest
      (pollDelaySecs p.check_after_secs :: r.1, r.2)

/-!
## `BlueskyService` authentication gating (bluesky.ts)

`uploadBlob` (line 44) and `post` (line 85) throw
`'Not authenticated with Bluesky'` before issuing any network call while
`this.session` is null; `login` (line 35) assigns `this.session` only
from a successful `createSession` response, so a constructor call without
a session followed by only failed logins leaves it null.
-/

/-- The Bluesky network calls the service can issue. -/
inductive BskyCall
  | createSession
  | uploadBlobCall
  | createRecord
deriving DecidableEq, Repr

/-- `login` (bluesky.ts lines 29-41): a successful `createSession`
response replaces the stored session; a thrown error leaves it as it
was. -/
def loginStep (s : Option BlueskySession) (result : Except String BlueskySession) :
    Option BlueskySession :=
  match result with
  | .ok sess => some sess
  | .error _ => s

/-- `uploadBlob` (bluesky.ts lines 43-82): with no session it throws
before any network call; otherwise it issues the blob upload and returns
the remote result. -/
def uploadBlobModel (session : Option BlueskySession)
    (remote : Except String BlueskyBlob) : Except String BlueskyBlob × List BskyCall :=
  match session with
  | none => (.error "Not authenticated with Bluesky", [])
  | some _ => (remote, [.uploadBlobCall])

/-- `post` (bluesky.ts lines 84-137): with no session it throws before
any network call; otherwise it issues `createRecord` and returns the
remote result. -/
def postModel (session : Option BlueskySession)
    (remote : Except String Unit) : Except String Unit × List BskyCall :=
  match session with
  | none => (.error "Not authenticated with Bluesky", [])
  | some _ => (remote, [.createRecord])

/-- Whether an `Except` is an error. -/
def exceptIsError : Except String BlueskySession → Bool
  | .error _ => true
  | .ok _ => false

/-!
## Concrete fixtures used by witnesses and counterexamples
-/

/-- A fully populated credential set. -/
def exCreds : Credentials :=
  ⟨some "k", some "ks", some "t", some "ts", some "alice.bsky", some "app-pw"⟩

/-- A picked image asset. -/
def exAssetA : MediaAsset := ⟨"file://a.jpg", .image, some "image/jpeg"⟩

/-- A second, different picked image asset. -/
def exAssetB : MediaAsset := ⟨"file://b.jpg", .image, some "image/jpeg"⟩

/-- A picked video asset. -/
def exAssetV : MediaAsset := ⟨"file://v.mp4", .video, some "video/mp4"⟩

/-- A blob descriptor cached from an early Bluesky upload. -/
def exBlob : BlueskyBlob := ⟨"bafy-link", "image/jpeg", 512⟩

/-- An environment in which every external call succeeds. -/
def exEnvOk : PostEnv :=
  ⟨.ok "mid-1", .ok (), .ok ⟨"did:plc:x", "jwt", "rjwt", "alice.bsky"⟩, .ok exBlob, .ok ()⟩

/-- A composer state ready to post: text entered, an image selected, both
early-upload handles cached, no upload in flight. -/
def exStateReady : ComposerState :=
  { text := "hello", media := some exAssetA, twitterMediaId := some "mid-0",
    blueskyBlob := some exBlob, blueskyEnabled := true,
    blueskyForceDisabled := false, isMediaUploading := false, uploading := false }

/-!
## Helper lemmas on the post phases
-/

theorem twUploadPhase_calls (env : PostEnv) (s : ComposerState) :
    (twitterUploadPhase env s).1 = [] ∨ (twitterUploadPhase env s).1 = [.twUploadMedia] := by
  unfold twitterUploadPhase
  rcases s.media with _ | a
  · simp
  · rcases s.twitterMediaId with _ | id
    · rcases h : env.uploadMedia with e | id <;> simp [h]
    · simp

theorem blueskyPhase_alert_cases (c : Credentials) (env : PostEnv) (s : ComposerState) :
    (blueskyPhase c env s).1 = .successBoth ∨ (blueskyPhase c env s).1 = .successTwitterOnly
      ∨ (blueskyPhase c env s).1 = .bskyFailed := by
  unfold blueskyPhase
  repeat' split
  all_goals simp

theorem blueskyPhase_alert_ne_error (c : Credentials) (env : PostEnv) (s : ComposerState) :
    ¬(blueskyPhase c env s).1 = .errorFailed := by
  rcases blueskyPhase_alert_cases c env s with h | h | h <;> simp [h]

theorem blueskyPhase_count_twPostTweet (c : Credentials) (env : PostEnv) (s : ComposerState) :
    (blueskyPhase c env s).2.count Call.twPostTweet = 0 := by
  unfold blueskyPhase
  repeat' split
  all_goals simp

theorem blueskyPhase_forceDisabled (c : Credentials) (env : PostEnv) (s : ComposerState)
    (h : s.blueskyForceDisabled = true) :
    blueskyPhase c env s = (.successTwitterOnly, []) := by
  unfold blueskyPhase
  simp [h]

theorem blueskyPhase_upload_error (c : Credentials) (env : PostEnv) (s : ComposerState)
    (e : String) (he : env.bskyUploadBlob = .error e)
    (hm : Call.bskyUploadBlob ∈ (blueskyPhase c env s).2) :
    (blueskyPhase c env s).1 = .bskyFailed := by
  unfold blueskyPhase at hm ⊢
  repeat' split at hm
  all_goals repeat' split
  all_goals simp_all

theorem blueskyPhase_record_error (c : Credentials) (env : PostEnv) (s : ComposerState)
    (e : String) (he : env.bskyPost = .error e)
    (hm : Call.bskyCreateRecord ∈ (blueskyPhase c env s).2) :
    (blueskyPhase c env s).1 = .bskyFailed := by
  unfold blueskyPhase at hm ⊢
  repeat' split at hm
  all_goals repeat' split
  all_goals simp_all

/-- Exhaustive case analysis of a `handlePost` execution: the three guard
refusals, the two outer-catch failures (inline `uploadMedia` throw,
`postTweet` throw), and the posted branch whose alert and remaining calls
come from `blueskyPhase`. -/
theorem handlePost_cases (creds : Option Credentials) (env : PostEnv) (s : ComposerState) :
    (handlePost creds env s = ⟨.emptyTweet, s, [], false⟩)
    ∨ (handlePost creds env s = ⟨.uploadingMedia, s, [], false⟩)
    ∨ (handlePost creds env s = ⟨.missingCredentials, { s with uploading := false }, [], true⟩)
    ∨ (handlePost creds env s
          = ⟨.errorFailed, { s with uploading := false }, (twitterUploadPhase env s).1, false⟩
        ∧ ∃ e, (twitterUploadPhase env s).2 = .error e)
    ∨ (handlePost creds env s
          = ⟨.errorFailed, { s with uploading := false },
              (twitterUploadPhase env s).1 ++ [.twPostTweet], false⟩
        ∧ ∃ e, env.postTweet = .error e)
    ∨ (∃ c, creds = some c ∧ env.postTweet = .ok ()
        ∧ handlePost creds env s
            = ⟨(blueskyPhase c env s).1, resetState s,
                (twitterUploadPhase env s).1 ++ [.twPostTweet] ++ (blueskyPhase c env s).2,
                false⟩) := by
  rcases hup : twitterUploadPhase env s with ⟨cs, exc⟩
  unfold handlePost
  rw [hup]
  repeat' split
  all_goals simp_all

/-!
## C2 — post request during an eager upload
-/

/-- C2 (counterexample to the claim as stated): a post request issued
while the eager upload is still running is *not* queued — on a concrete
ready-to-post state with `isMediaUploading` set, `handlePost` refuses
with the `'Uploading Media'` alert, issues no calls, and returns the
state exactly as it was, so nothing exists in the program state that
could re-evaluate the request once the uploads settle. -/
theorem c2_post_request_refused_cex :
    handlePost (some exCreds) exEnvOk { exStateReady with isMediaUploading := true }
      = ⟨.uploadingMedia, { exStateReady with isMediaUploading := true }, [], false⟩ := by
  decide

/-- C2 (amended): a post request issued while `isMediaUploading` is true
(and carrying some content, so the emptiness guard does not fire first)
is refused with the `'Uploading Media'` alert: no network call is made,
no navigation happens, and the state is returned unchanged — the request
is dropped, not queued for automatic re-evaluation. -/
theorem c2_amended_refusal (creds : Option Credentials) (env : PostEnv)
    (s : ComposerState) (hup : s.isMediaUploading = true)
    (hcontent : (s.text.isEmpty && s.media.isNone) = false) :
    handlePost creds env s = ⟨.uploadingMedia, s, [], false⟩ := by
  unfold handlePost
  simp only [Bool.and_eq_false_iff] at hcontent
  rcases hcontent with h | h
  · simp_all
  · have hm : ¬s.media = none := by
      rcases hmed : s.media with _ | a
      · rw [hmed] at h; simp at h
      · simp
    simp_all

/-- Witness for `c2_amended_refusal` at a concrete state. -/
theorem c2_amended_witness :
    handlePost (some exCreds) exEnvOk { exStateReady with isMediaUploading := true }
      = ⟨.uploadingMedia, { exStateReady with isMediaUploading := true }, [], false⟩ :=
  c2_amended_refusal (some exCreds) exEnvOk
    { exStateReady with isMediaUploading := true } (by decide) (by decide)

/-!
## C3 — secondary-destination eligibility
-/

/-- C3 (counterexample to the claim as stated): the claim's eligibility
rule disables the secondary destination for a video asset, but the code's
text-length effect does not: with a selected video and short text the
toggle is not forced off, and `handlePost` does post to Bluesky — the
secondary post endpoint receives one call while the claimed rule deems
the destination ineligible. -/
theorem c3_video_not_disabled_cex :
    specSecondaryDisabled (some exAssetV) "hello" = true
      ∧ runTextLengthEffect "hello" false = false
      ∧ (handlePost (some exCreds) exEnvOk
          { exStateReady with media := some exAssetV }).calls.count .bskyCreateRecord = 1 := by
  decide

/-- C3 (amended): the secondary destination is automatically disabled
exactly when the text length exceeds 300 characters (a video asset does
not disable it); in particular text of 305 characters forces the toggle
off, and whenever `blueskyForceDisabled` is set, `handlePost` performs
none of the Bluesky calls even if `blueskyEnabled` is still true. -/
theorem c3_amended_text_length_only (text : String) (prev : Bool)
    (creds : Option Credentials) (env : PostEnv) (s : ComposerState)
    (hforce : s.blueskyForceDisabled = true) :
    runTextLengthEffect text prev = decide (text.length > 300)
      ∧ (text.length = 305 → runTextLengthEffect text prev = true)
      ∧ (handlePost creds env s).calls.count .bskyCreateRecord = 0
      ∧ (handlePost creds env s).calls.count .bskyLogin = 0
      ∧ (handlePost creds env s).calls.count .bskyUploadBlob = 0 := by
  have heff : runTextLengthEffect text prev = decide (text.length > 300) := by
    unfold runTextLengthEffect
    by_cases h : text.length > 300
    · simp [h]
    · cases prev <;> simp [h]
  refine ⟨heff, fun h305 => by simp [heff, h305], ?_⟩
  have hu := twUploadPhase_calls env s
  rcases handlePost_cases creds env s with h | h | h | ⟨h, e, he⟩ | ⟨h, e, he⟩ | ⟨c, hc, hpt, h⟩
  · rw [h]; simp
  · rw [h]; simp
  · rw [h]; simp
  · rw [h]; rcases hu with hu | hu <;> simp [hu]
  · rw [h]; rcases hu with hu | hu <;> simp [hu, List.count_append]
  · rw [h]
    rcases hu with hu | hu <;>
      simp [hu, List.count_append, blueskyPhase_forceDisabled c env s hforce]

/-- Witness for `c3_amended_text_length_only` at a concrete forced-off
state. -/
theorem c3_amended_witness :
    runTextLengthEffect "hello" false = decide (("hello").length > 300)
      ∧ (handlePost (some exCreds) exEnvOk
          { exStateReady with blueskyForceDisabled := true }).calls.count .bskyCreateRecord
        = 0 := by
  have h := c3_amended_text_length_only "hello" false (some exCreds) exEnvOk
    { exStateReady with blueskyForceDisabled := true } (by decide)
  exact ⟨h.1, h.2.2.1⟩

/-!
## C4 — Twitter failure aborts the whole operation
-/

/-- C4: whenever the `postTweet` call is issued and throws, `handlePost`
reports the hard-failure alert and never touches the Bluesky destination:
zero Bluesky calls (record creation, login, blob upload) occur in that
execution. -/
theorem c4_twitter_failure_skips_bluesky (creds : Option Credentials) (env : PostEnv)
    (s : ComposerState) (e : String) (he : env.postTweet = .error e)
    (hreach : Call.twPostTweet ∈ (handlePost creds env s).calls) :
    (handlePost creds env s).alert = .errorFailed
      ∧ (handlePost creds env s).calls.count .bskyCreateRecord = 0
      ∧ (handlePost creds env s).calls.count .bskyLogin = 0
      ∧ (handlePost creds env s).calls.count .bskyUploadBlob = 0 := by
  have hu := twUploadPhase_calls env s
  rcases handlePost_cases creds env s with h | h | h | ⟨h, e2, he2⟩ | ⟨h, e2, he2⟩ | ⟨c, hc, hpt, h⟩
  · rw [h] at hreach; simp at hreach
  · rw [h] at hreach; simp at hreach
  · rw [h] at hreach; simp at hreach
  · rw [h] at hreach ⊢
    rcases hu with hu | hu <;> rw [hu] at hreach <;> simp_all
  · rw [h]
    rcases hu with hu | hu <;> simp [hu, List.count_append]
  · rw [hpt] at he; simp at he

/-- Witness for `c4_twitter_failure_skips_bluesky`: concrete ready state,
`postTweet` throwing. -/
theorem c4_witness :
    (handlePost (some exCreds) { exEnvOk with postTweet := .error "boom" } exStateReady).alert
      = .errorFailed
      ∧ (handlePost (some exCreds) { exEnvOk with postTweet := .error "boom" }
          exStateReady).calls.count .bskyCreateRecord = 0 := by
  have h := c4_twitter_failure_skips_bluesky (some exCreds)
    { exEnvOk with postTweet := .error "boom" } exStateReady "boom" rfl (by decide)
  exact ⟨h.1, h.2.1⟩

/-!
## C5 — Bluesky failure downgrades to partial success
-/

/-- C5: in any `handlePost` execution in which the Bluesky blob upload or
the Bluesky record creation is issued and throws, the outcome is the
partial-success alert (posted to Twitter, Bluesky failed), and the
already-performed `postTweet` call appears exactly once in the call log —
it is neither retried nor reverted (no undo call even exists in the
protocol). -/
theorem c5_bluesky_failure_is_partial (creds : Option Credentials) (env : PostEnv)
    (s : ComposerState) (e : String)
    (hfail : (Call.bskyUploadBlob ∈ (handlePost creds env s).calls
          ∧ env.bskyUploadBlob = .error e)
      ∨ (Call.bskyCreateRecord ∈ (handlePost creds env s).calls
          ∧ env.bskyPost = .error e)) :
    (handlePost creds env s).alert = .bskyFailed
      ∧ (handlePost creds env s).calls.count .twPostTweet = 1 := by
  have hu := twUploadPhase_calls env s
  rcases handlePost_cases creds env s with h | h | h | ⟨h, e2, he2⟩ | ⟨h, e2, he2⟩ | ⟨c, hc, hpt, h⟩
  · rw [h] at hfail; simp at hfail
  · rw [h] at hfail; simp at hfail
  · rw [h] at hfail; simp at hfail
  · rcases hu with hu | hu <;> rw [h] at hfail <;> rw [hu] at hfail <;> simp at hfail
  · rcases hu with hu | hu <;> rw [h] at hfail <;> rw [hu] at hfail <;> simp at hfail
  · rw [h] at hfail ⊢
    have halert : (blueskyPhase c env s).1 = .bskyFailed := by
      rcases hfail with ⟨hm, herr⟩ | ⟨hm, herr⟩
      · refine blueskyPhase_upload_error c env s e herr ?_
        rcases hu with hu | hu <;> rw [hu] at hm <;> simpa using hm
      · refine blueskyPhase_record_error c env s e herr ?_
        rcases hu with hu | hu <;> rw [hu] at hm <;> simpa using hm
    refine ⟨halert, ?_⟩
    rcases hu with hu | hu <;>
      simp [hu, List.count_append, blueskyPhase_count_twPostTweet c env s]

/-- Witness for `c5_bluesky_failure_is_partial`: concrete ready state
with no cached blob, the Bluesky blob upload throwing. -/
theorem c5_witness :
    (handlePost (some exCreds) { exEnvOk with bskyUploadBlob := .error "nope" }
        { exStateReady with blueskyBlob := none }).alert = .bskyFailed
      ∧ (handlePost (some exCreds) { exEnvOk with bskyUploadBlob := .error "nope" }
          { exStateReady with blueskyBlob := none }).calls.count .twPostTweet = 1 :=
  c5_bluesky_failure_is_partial (some exCreds)
    { exEnvOk with bskyUploadBlob := .error "nope" }
    { exStateReady with blueskyBlob := none } "nope" (Or.inl ⟨by decide, rfl⟩)

/-!
## C9 — state reset on success, preserved on failure
-/

/-- C9: if a `handlePost` execution ends in a success alert (full,
Twitter-only, or the partial-success alert), the composer state — text,
selected asset, and both cached upload handles — is reset to empty; if it
ends in the hard-failure alert (the Twitter upload retry or `postTweet`
threw), all four fields are left exactly as they were so the user can
retry. -/
theorem c9_state_reset_or_preserved (creds : Option Credentials) (env : PostEnv)
    (s : ComposerState) :
    (((handlePost creds env s).alert = .successBoth
        ∨ (handlePost creds env s).alert = .successTwitterOnly
        ∨ (handlePost creds env s).alert = .bskyFailed) →
      (handlePost creds env s).state.text = ""
        ∧ (handlePost creds env s).state.media = none
        ∧ (handlePost creds env s).state.twitterMediaId = none
        ∧ (handlePost creds env s).state.blueskyBlob = none)
    ∧ ((handlePost creds env s).alert = .errorFailed →
      (handlePost creds env s).state.text = s.text
        ∧ (handlePost creds env s).state.media = s.media
        ∧ (handlePost creds env s).state.twitterMediaId = s.twitterMediaId
        ∧ (handlePost creds env s).state.blueskyBlob = s.blueskyBlob) := by
  rcases handlePost_cases creds env s with h | h | h | ⟨h, e, he⟩ | ⟨h, e, he⟩ | ⟨c, hc, hpt, h⟩ <;>
    rw [h] <;> simp [resetState, blueskyPhase_alert_ne_error]

/-- Witness for `c9_state_reset_or_preserved`: on a concrete fully
successful post the four fields are cleared. -/
theorem c9_witness :
    (handlePost (some exCreds) exEnvOk exStateReady).state.text = ""
      ∧ (handlePost (some exCreds) exEnvOk exStateReady).state.media = none
      ∧ (handlePost (some exCreds) exEnvOk exStateReady).state.twitterMediaId = none
      ∧ (handlePost (some exCreds) exEnvOk exStateReady).state.blueskyBlob = none :=
  (c9_state_reset_or_preserved (some exCreds) exEnvOk exStateReady).1 (by decide)

/-!
## C1 — stale early-upload completions
-/

/-- C1 (counterexample to the claim as stated): pick asset A (selection
1), pick asset B (selection 2) before A's upload resolves — the cached
handles are `none` and the current selection is 2 — then let A's early
Twitter upload (captured selection 1, now stale) succeed: its completion
handler stores `twitterMediaId = some "media-id-A"` into the state
associated with selection B.  The stale completion is applied, not
discarded. -/
theorem c1_stale_completion_mutates_cex :
    ((runCompose exCreds [.pickMedia exAssetA, .pickMedia exAssetB]).comp.twitterMediaId = none
      ∧ (runCompose exCreds [.pickMedia exAssetA, .pickMedia exAssetB]).selection = 2)
    ∧ (runCompose exCreds [.pickMedia exAssetA, .pickMedia exAssetB,
          .twitterUploadSettled 1 (.ok "media-id-A")]).comp.twitterMediaId
        = some "media-id-A" := by
  decide

/-- C1 (amended): the early-upload completion handlers have no staleness
check at all — a successful Twitter (resp. Bluesky) completion whose task
is still pending stores its handle into the shared state regardless of
whether its captured selection is the current one; the only protection in
the code is that `pickMedia` clears both cached handles at selection
time. -/
theorem c1_amended_unconditional_completion (c : Credentials) (m : ComposeModel)
    (sel : Nat) (id : String) (blob : BlueskyBlob) (a : MediaAsset)
    (htw : sel ∈ m.pendingTw) (hb : sel ∈ m.pendingBsky) :
    (applyCompose c m (.twitterUploadSettled sel (.ok id))).comp.twitterMediaId = some id
      ∧ (applyCompose c m (.blueskyUploadSettled sel (.ok blob))).comp.blueskyBlob = some blob
      ∧ (applyCompose c m (.pickMedia a)).comp.twitterMediaId = none
      ∧ (applyCompose c m (.pickMedia a)).comp.blueskyBlob = none := by
  unfold applyCompose
  refine ⟨?_, ?_, rfl, rfl⟩
  · simp only [htw, if_pos]
    split <;> rfl
  · simp only [hb, if_pos]
    split <;> rfl

/-- Witness for `c1_amended_unconditional_completion`: the stale
(selection 1) completions of the counterexample trace store their
handles. -/
theorem c1_amended_witness :
    (applyCompose exCreds (runCompose exCreds [.pickMedia exAssetA, .pickMedia exAssetB])
        (.twitterUploadSettled 1 (.ok "media-id-A"))).comp.twitterMediaId
      = some "media-id-A" :=
  (c1_amended_unconditional_completion exCreds
    (runCompose exCreds [.pickMedia exAssetA, .pickMedia exAssetB])
    1 "media-id-A" exBlob exAssetA (by decide) (by decide)).1

/-!
## C10 — unauthenticated Bluesky calls are refused locally
-/

/-- C10: a `BlueskyService` constructed without a session, after any
sequence of `login` attempts that all failed, still has no session, and
both `uploadBlob` and `post` then throw `'Not authenticated with
Bluesky'` while issuing zero network calls. -/
theorem c10_unauthenticated_guard (attempts : List (Except String BlueskySession))
    (remoteB : Except String BlueskyBlob) (remoteP : Except String Unit)
    (hall : ∀ a ∈ attempts, exceptIsError a = true) :
    attempts.foldl loginStep none = none
      ∧ uploadBlobModel (attempts.foldl loginStep none) remoteB
          = (.error "Not authenticated with Bluesky", [])
      ∧ postModel (attempts.foldl loginStep none) remoteP
          = (.error "Not authenticated with Bluesky", []) := by
  have hnone : attempts.foldl loginStep none = none := by
    induction attempts with
    | nil => rfl
    | cons a t ih =>
      have ha := hall a (by simp)
      rcases a with e | sess
      · simpa [loginStep] using ih fun x hx => hall x (by simp [hx])
      · simp [exceptIsError] at ha
  exact ⟨hnone, by rw [hnone]; rfl, by rw [hnone]; rfl⟩

/-- Witness for `c10_unauthenticated_guard`: one failed login attempt. -/
theorem c10_witness :
    uploadBlobModel ([Except.error "bad creds"].foldl loginStep none) (.ok exBlob)
      = (.error "Not authenticated with Bluesky", []) :=
  (c10_unauthenticated_guard [Except.error "bad creds"] (.ok exBlob) (.ok ())
    (by decide)).2.1

/-!
## C8 — STATUS polling
-/

theorem pollDelaySecs_ge_one (o : Option Nat) : 1 ≤ pollDelaySecs o := by
  rcases o with _ | n
  · simp [pollDelaySecs]
  · by_cases h : n = 0
    · simp [pollDelaySecs, h]
    · simp [pollDelaySecs, h, Nat.one_le_iff_ne_zero]

theorem checkStatusRun_cons_nonterminal (p : ProcessingInfo) (l : List ProcessingInfo)
    (hp : isTerminalState p.state = false) :
    checkStatusRun (p :: l)
      = (pollDelaySecs p.check_after_secs :: (checkStatusRun l).1, (checkStatusRun l).2) := by
  simp [checkStatusRun, hp]

/-- C8: for any poll-response sequence consisting of non-terminal
payloads followed by the first terminal payload (and anything after it),
`checkStatusRun` stops exactly at that first terminal payload (later
responses are never consulted), sleeps once per non-terminal response for
`check_after_secs || 1` seconds — always at least one second —, returns
an error when the terminal state is `failed`, and returns success when it
is `succeeded`. -/
theorem c8_status_poll_loop (pre : List ProcessingInfo) (t : ProcessingInfo)
    (post : List ProcessingInfo)
    (hpre : ∀ p ∈ pre, isTerminalState p.state = false)
    (ht : isTerminalState t.state = true) :
    checkStatusRun (pre ++ t :: post) = checkStatusRun (pre ++ [t])
      ∧ (checkStatusRun (pre ++ t :: post)).1
          = pre.map (fun p => pollDelaySecs p.check_after_secs)
      ∧ (∀ d ∈ (checkStatusRun (pre ++ t :: post)).1, 1 ≤ d)
      ∧ (t.state = "failed" →
          (checkStatusRun (pre ++ t :: post)).2 = .error "Media processing failed")
      ∧ (¬t.state = "failed" →
          (checkStatusRun (pre ++ t :: post)).2 = .ok ()) := by
  induction pre with
  | nil =>
    refine ⟨by simp [checkStatusRun, ht], by simp [checkStatusRun, ht],
      by simp [checkStatusRun, ht], ?_, ?_⟩
    · intro hf
      have hb : (t.state == "failed") = true := by simp [hf]
      simp [checkStatusRun, ht, hb]
    · intro hf
      have hb : (t.state == "failed") = false := by simpa using hf
      simp [checkStatusRun, ht, hb]
  | cons p rest ih =>
    have hp : isTerminalState p.state = false := hpre p (by simp)
    have ih2 := ih fun q hq => hpre q (by simp [hq])
    refine ⟨?_, ?_, ?_, ?_, ?_⟩
    · rw [List.cons_append, List.cons_append,
        checkStatusRun_cons_nonterminal p _ hp, checkStatusRun_cons_nonterminal p _ hp,
        ih2.1]
    · rw [List.cons_append, checkStatusRun_cons_nonterminal p _ hp]
      simp [ih2.2.1]
    · intro d hd
      rw [List.cons_append, checkStatusRun_cons_nonterminal p _ hp] at hd
      rcases List.mem_cons.mp hd with h | h
      · rw [h]; exact pollDelaySecs_ge_one _
      · exact ih2.2.2.1 d h
    · intro hf
      rw [List.cons_append, checkStatusRun_cons_nonterminal p _ hp]
      exact ih2.2.2.2.1 hf
    · intro hf
      rw [List.cons_append, checkStatusRun_cons_nonterminal p _ hp]
      exact ih2.2.2.2.2 hf

/-- Witness for `c8_status_poll_loop`: two in-progress responses (one
suggesting 5 s, one suggesting 0 s) then `succeeded`: the sleeps taken
are 5 s and 1 s and the poll resolves successfully. -/
theorem c8_witness :
    (checkStatusRun [⟨"in_progress", some 5⟩, ⟨"in_progress", some 0⟩, ⟨"succeeded", none⟩]).1
        = [5, 1]
      ∧ (checkStatusRun
          [⟨"in_progress", some 5⟩, ⟨"in_progress", some 0⟩, ⟨"succeeded", none⟩]).2
        = .ok () := by
  have h := c8_status_poll_loop
    [⟨"in_progress", some 5⟩, ⟨"in_progress", some 0⟩] ⟨"succeeded", none⟩ []
    (by decide) (by decide)
  refine ⟨?_, h.2.2.2.2 (by decide)⟩
  have h1 := h.2.1
  simpa using h1

/-!
## The chunk-scheduler invariant (C6, C7)
-/

/-- Fuel irrelevance for the chunk partition: any two fuels large enough
to cover the remaining bytes produce the same chunk list. -/
theorem chunkPlanGo_stable (tb cs : Nat) (hcs : 0 < cs) :
    ∀ f g off seg, tb - off < f → tb - off < g →
      chunkPlanGo tb cs f off seg = chunkPlanGo tb cs g off seg := by
  intro f
  induction f with
  | zero => intro g off seg hf _; omega
  | succ f ihf =>
    intro g off seg hf hg
    rcases g with _ | g
    · omega
    · simp only [chunkPlanGo]
      by_cases hoff : off < tb
      · have hlen : 1 ≤ min cs (tb - off) := le_min hcs (by omega)
        have hlen2 : min cs (tb - off) ≤ tb - off := min_le_right _ _
        simp only [hoff, if_pos]
        rw [ihf g (off + min cs (tb - off)) (seg + 1) (by omega) (by omega)]
      · simp [hoff]

/-- `queueNextChunk` preserves the partition-prefix relation between the
scheduled list and the pending plan, and keeps `offset ≤ tb`. -/
theorem queueNextChunk_plan (tb cs mc : Nat) (hcs : 0 < cs) :
    ∀ fuel s,
      s.scheduled ++ chunkPlanGo tb cs (tb + 1) s.offset s.segmentIndex = chunkPlan tb cs →
      s.offset ≤ tb →
      ((queueNextChunk tb cs mc fuel s).scheduled
            ++ chunkPlanGo tb cs (tb + 1) (queueNextChunk tb cs mc fuel s).offset
                (queueNextChunk tb cs mc fuel s).segmentIndex
          = chunkPlan tb cs
        ∧ (queueNextChunk tb cs mc fuel s).offset ≤ tb) := by
  intro fuel
  induction fuel with
  | zero => intro s h1 h2; exact ⟨h1, h2⟩
  | succ fuel ihf =>
    intro s h1 h2
    simp only [queueNextChunk]
    split
    · rename_i hcond
      have hoff : s.offset < tb := hcond.1
      have hlen : 1 ≤ min cs (tb - s.offset) := le_min hcs (by omega)
      have hlen2 : min cs (tb - s.offset) ≤ tb - s.offset := min_le_right _ _
      refine ihf _ ?_ (by simp; omega)
      have hexpand : chunkPlanGo tb cs (tb + 1) s.offset s.segmentIndex
          = ⟨s.segmentIndex, s.offset, min cs (tb - s.offset)⟩
              :: chunkPlanGo tb cs (tb + 1) (s.offset + min cs (tb - s.offset))
                  (s.segmentIndex + 1) := by
        conv_lhs => rw [chunkPlanGo]
        simp only [hoff, if_pos]
        rw [chunkPlanGo_stable tb cs hcs tb (tb + 1) _ _ (by omega) (by omega)]
      rw [hexpand] at h1
      rw [List.append_assoc]
      simpa using h1
    · exact ⟨h1, h2⟩

/-- `queueNextChunk` only adds work: `completed`, `failed` and
`abortSignaled` are untouched. -/
theorem queueNextChunk_frame (tb cs mc : Nat) :
    ∀ fuel s,
      (queueNextChunk tb cs mc fuel s).completed = s.completed
        ∧ (queueNextChunk tb cs mc fuel s).failed = s.failed
        ∧ (queueNextChunk tb cs mc fuel s).abortSignaled = s.abortSignaled := by
  intro fuel
  induction fuel with
  | zero => intro s; exact ⟨rfl, rfl, rfl⟩
  | succ fuel ihf =>
    intro s
    simp only [queueNextChunk]
    split
    · exact ihf _
    · exact ⟨rfl, rfl, rfl⟩

/-- With enough fuel, `queueNextChunk` saturates: afterwards either all
bytes are scheduled or the in-flight pool is full. -/
theorem queueNextChunk_sat (tb cs mc : Nat) (hcs : 0 < cs) :
    ∀ fuel s, tb - s.offset < fuel →
      ¬((queueNextChunk tb cs mc fuel s).offset < tb
        ∧ (queueNextChunk tb cs mc fuel s).inFlight.length < mc) := by
  intro fuel
  induction fuel with
  | zero => intro s h; omega
  | succ fuel ihf =>
    intro s hfuel
    simp only [queueNextChunk]
    split
    · rename_i hcond
      have hoff : s.offset < tb := hcond.1
      have hlen : 1 ≤ min cs (tb - s.offset) := le_min hcs (by omega)
      exact ihf _ (by simp; omega)
    · rename_i hcond
      exact hcond

/-- `queueNextChunk` preserves the alignment of `segmentIndex` with the
scheduled list and the fact that scheduled segment indices are exactly
`0, 1, …` in order. -/
theorem queueNextChunk_segs (tb cs mc : Nat) :
    ∀ fuel s,
      s.segmentIndex = s.scheduled.length →
      s.scheduled.map Chunk.seg = List.range s.scheduled.length →
      ((queueNextChunk tb cs mc fuel s).segmentIndex
            = (queueNextChunk tb cs mc fuel s).scheduled.length
        ∧ (queueNextChunk tb cs mc fuel s).scheduled.map Chunk.seg
            = List.range (queueNextChunk tb cs mc fuel s).scheduled.length) := by
  intro fuel
  induction fuel with
  | zero => intro s h1 h2; exact ⟨h1, h2⟩
  | succ fuel ihf =>
    intro s h1 h2
    simp only [queueNextChunk]
    split
    · refine ihf _ (by simp [h1]) ?_
      simp only [List.map_append, List.length_append, List.map_cons, List.map_nil]
      rw [h2, h1]
      simp [List.range_succ]
    · exact ⟨h1, h2⟩

/-- The loop invariant of the APPEND drive loop. -/
def LoopInv (tb cs mc : Nat) (s : UploadLoopState) : Prop :=
  s.scheduled ++ chunkPlanGo tb cs (tb + 1) s.offset s.segmentIndex = chunkPlan tb cs
    ∧ s.offset ≤ tb
    ∧ (s.failed = none →
        ¬(s.offset < tb ∧ s.inFlight.length < mc))
    ∧ s.segmentIndex = s.scheduled.length
    ∧ s.scheduled.map Chunk.seg = List.range s.scheduled.length
    ∧ s.abortSignaled = false

/-- The state after the initial `queueNextChunk()` call satisfies the
invariant. -/
theorem loopInv_init (tb cs mc : Nat) (hcs : 0 < cs) :
    LoopInv tb cs mc (queueNextChunk tb cs mc (tb + 1) initChunkState) := by
  have hplan := queueNextChunk_plan tb cs mc hcs (tb + 1) initChunkState
    (by simp [initChunkState, chunkPlan]) (by simp [initChunkState])
  have hsat := queueNextChunk_sat tb cs mc hcs (tb + 1) initChunkState
    (by simp [initChunkState])
  have hsegs := queueNextChunk_segs tb cs mc (tb + 1) initChunkState
    (by simp [initChunkState]) (by simp [initChunkState])
  have hframe := queueNextChunk_frame tb cs mc (tb + 1) initChunkState
  exact ⟨hplan.1, hplan.2, fun _ => hsat, hsegs.1, hsegs.2,
    by rw [hframe.2.2]; rfl⟩

/-- Each settling event preserves the loop invariant. -/
theorem stepChunk_inv (tb cs mc : Nat) (hcs : 0 < cs) (s : UploadLoopState)
    (e : ChunkEvent) (hinv : LoopInv tb cs mc s) :
    LoopInv tb cs mc (stepChunk tb cs mc s e) := by
  obtain ⟨hplan, hoff, hsat, hseg, hmap, habort⟩ := hinv
  rcases e with seg | seg
  · simp only [stepChunk]
    rcases hfind : s.inFlight.find? (fun c => c.seg == seg) with _ | c
    · simp only [hfind]
      exact ⟨hplan, hoff, hsat, hseg, hmap, habort⟩
    · rcases hfailed : s.failed with _ | fc
      · simp only [hfind, Option.isSome_none, Bool.false_eq_true, if_false]
        have hplan2 := queueNextChunk_plan tb cs mc hcs (tb + 1)
          { s with inFlight := s.inFlight.eraseP (fun c2 => c2.seg == seg),
                   completed := s.completed ++ [c], failed := none } hplan hoff
        have hsat2 := queueNextChunk_sat tb cs mc hcs (tb + 1)
          { s with inFlight := s.inFlight.eraseP (fun c2 => c2.seg == seg),
                   completed := s.completed ++ [c], failed := none } (by simp; omega)
        have hsegs2 := queueNextChunk_segs tb cs mc (tb + 1)
          { s with inFlight := s.inFlight.eraseP (fun c2 => c2.seg == seg),
                   completed := s.completed ++ [c], failed := none } hseg hmap
        have hframe := queueNextChunk_frame tb cs mc (tb + 1)
          { s with inFlight := s.inFlight.eraseP (fun c2 => c2.seg == seg),
                   completed := s.completed ++ [c], failed := none }
        exact ⟨hplan2.1, hplan2.2, fun _ => hsat2, hsegs2.1, hsegs2.2,
          by rw [hframe.2.2]; exact habort⟩
      · simp only [hfind, hfailed, Option.isSome_some, if_true]
        exact ⟨hplan, hoff, by simp [hfailed], hseg, hmap, habort⟩
  · simp only [stepChunk]
    rcases hfind : s.inFlight.find? (fun c => c.seg == seg) with _ | c
    · simp only [hfind]
      exact ⟨hplan, hoff, hsat, hseg, hmap, habort⟩
    · rcases hfailed : s.failed with _ | fc
      · simp only [hfind, hfailed, Option.isSome_none, Bool.false_eq_true, if_false]
        exact ⟨hplan, hoff, by simp, hseg, hmap, habort⟩
      · simp only [hfind, hfailed, Option.isSome_some, if_true]
        exact ⟨hplan, hoff, by simp [hfailed], hseg, hmap, habort⟩

/-- The invariant holds at every reachable state of the drive loop. -/
theorem runChunkLoop_inv (tb cs mc : Nat) (hcs : 0 < cs) (es : List ChunkEvent) :
    LoopInv tb cs mc (runChunkLoop tb cs mc es) := by
  unfold runChunkLoop
  have h0 := loopInv_init tb cs mc hcs
  generalize queueNextChunk tb cs mc (tb + 1) initChunkState = s0 at h0
  induction es generalizing s0 with
  | nil => exact h0
  | cons e rest ih =>
    exact ih _ (stepChunk_inv tb cs mc hcs s0 e h0)

theorem appendChunkSize_pos (isVideo : Bool) (tb : Nat) : 0 < appendChunkSize isVideo tb := by
  unfold appendChunkSize
  split <;> norm_num

theorem maxConcurrentAppends_pos (isVideo : Bool) (tb : Nat) :
    0 < maxConcurrentAppends isVideo tb := by
  unfold maxConcurrentAppends
  split <;> norm_num

/-- The chunk partition is an exact chain: contiguous, gap-free,
overlap-free coverage of `[off, tb)` with consecutive segment indices. -/
theorem chunkPlanGo_chain (tb cs : Nat) (hcs : 0 < cs) :
    ∀ fuel off seg, tb - off < fuel → off ≤ tb →
      chainFromB tb off seg (chunkPlanGo tb cs fuel off seg) = true := by
  intro fuel
  induction fuel with
  | zero => intro off seg h1 _; omega
  | succ fuel ihf =>
    intro off seg h1 h2
    simp only [chunkPlanGo]
    by_cases hoff : off < tb
    · have hlen : 1 ≤ min cs (tb - off) := le_min hcs (by omega)
      have hlen2 : min cs (tb - off) ≤ tb - off := min_le_right _ _
      simp only [hoff, if_pos, chainFromB, Bool.and_eq_true, beq_iff_eq,
        decide_eq_true_eq]
      refine ⟨?_, ihf (off + min cs (tb - off)) (seg + 1) (by omega) (by omega)⟩
      simp [Nat.lt_min]
      omega
    · have hoff2 : off = tb := by omega
      simp [hoff, chainFromB, hoff2]

/-- With all bytes consumed, nothing remains to plan. -/
theorem chunkPlanGo_done (tb cs fuel seg : Nat) :
    chunkPlanGo tb cs fuel tb seg = [] := by
  rcases fuel with _ | fuel <;> simp [chunkPlanGo]

/-- C6: for every chunked upload of `tb > 0` bytes, under any settling
order of the concurrent APPENDs, if the drive loop drains (no chunk left
in flight) without a failure, then the set of chunks it scheduled is
exactly the partition `chunkPlan`, and that partition is an exact chain
over `[0, tb)`: contiguous non-empty byte ranges with no gaps and no
overlaps, carrying consecutive segment indices starting at 0 — so server
reconstruction is independent of completion order. -/
theorem c6_chunks_partition (tb : Nat) (isVideo : Bool) (es : List ChunkEvent)
    (htb : 0 < tb)
    (hdrain : (runChunkLoop tb (appendChunkSize isVideo tb)
        (maxConcurrentAppends isVideo tb) es).inFlight = [])
    (hnofail : (runChunkLoop tb (appendChunkSize isVideo tb)
        (maxConcurrentAppends isVideo tb) es).failed = none) :
    (runChunkLoop tb (appendChunkSize isVideo tb)
        (maxConcurrentAppends isVideo tb) es).scheduled
        = chunkPlan tb (appendChunkSize isVideo tb)
      ∧ chainFromB tb 0 0 (chunkPlan tb (appendChunkSize isVideo tb)) = true := by
  have hcs := appendChunkSize_pos isVideo tb
  have hmc := maxConcurrentAppends_pos isVideo tb
  obtain ⟨hplan, hoff, hsat, hseg, hmap, habort⟩ :=
    runChunkLoop_inv tb (appendChunkSize isVideo tb) (maxConcurrentAppends isVideo tb) hcs es
  have hoffeq : (runChunkLoop tb (appendChunkSize isVideo tb)
      (maxConcurrentAppends isVideo tb) es).offset = tb := by
    by_contra hne
    have hlt : (runChunkLoop tb (appendChunkSize isVideo tb)
        (maxConcurrentAppends isVideo tb) es).offset < tb := by omega
    exact hsat hnofail ⟨hlt, by rw [hdrain]; simpa using hmc⟩
  constructor
  · rw [hoffeq, chunkPlanGo_done] at hplan
    simpa using hplan
  · exact chunkPlanGo_chain tb (appendChunkSize isVideo tb) hcs (tb + 1) 0 0
      (by omega) (by omega)

/-- Witness for `c6_chunks_partition`: a 5-byte image upload (one 2 MiB
chunk truncated to 5 bytes) whose single APPEND completes. -/
theorem c6_witness :
    (runChunkLoop 5 (appendChunkSize false 5) (maxConcurrentAppends false 5)
        [.complete 0]).scheduled
        = chunkPlan 5 (appendChunkSize false 5)
      ∧ chainFromB 5 0 0 (chunkPlan 5 (appendChunkSize false 5)) = true :=
  c6_chunks_partition 5 false [.complete 0] (by decide) (by decide) (by decide)

/-- After the drive loop has recorded a failure, further settling events
change neither the scheduled set nor the recorded failure. -/
theorem stepChunk_after_failure (tb cs mc : Nat) (s : UploadLoopState) (e : ChunkEvent)
    (h : s.failed.isSome = true) :
    (stepChunk tb cs mc s e).scheduled = s.scheduled
      ∧ (stepChunk tb cs mc s e).failed = s.failed := by
  rcases e with seg | seg <;> simp only [stepChunk] <;>
    rcases hfind : s.inFlight.find? (fun c => c.seg == seg) with _ | c <;>
    simp [hfind, h]

/-- Once failed, any further event sequence leaves the scheduled set and
the recorded failure untouched. -/
theorem foldl_after_failure (tb cs mc : Nat) (c : Chunk) :
    ∀ (es2 : List ChunkEvent) (s : UploadLoopState), s.failed = some c →
      (es2.foldl (stepChunk tb cs mc) s).scheduled = s.scheduled
        ∧ (es2.foldl (stepChunk tb cs mc) s).failed = some c := by
  intro es2
  induction es2 with
  | nil => intro s h; exact ⟨rfl, h⟩
  | cons e rest ih =>
    intro s h
    have hstep := stepChunk_after_failure tb cs mc s e (by simp [h])
    have ih2 := ih (stepChunk tb cs mc s e) (by rw [hstep.2, h])
    simp only [List.foldl_cons]
    exact ⟨by rw [ih2.1, hstep.1], ih2.2⟩

/-- C7 (counterexample to the claim as stated): a 4 MiB upload schedules
two 2 MiB chunks concurrently; when chunk 0's APPEND fails, chunk 1 is
still in flight and no abort is ever signalled to it — the claim's
"all other in-flight chunks are aborted" does not hold. -/
theorem c7_inflight_not_aborted_cex :
    (runChunkLoop 4194304 (appendChunkSize false 4194304)
        (maxConcurrentAppends false 4194304) [.fail 0]).failed
        = some ⟨0, 0, 2097152⟩
      ∧ (runChunkLoop 4194304 (appendChunkSize false 4194304)
          (maxConcurrentAppends false 4194304) [.fail 0]).inFlight
        = [⟨1, 2097152, 2097152⟩]
      ∧ (runChunkLoop 4194304 (appendChunkSize false 4194304)
          (maxConcurrentAppends false 4194304) [.fail 0]).abortSignaled = false := by
  decide

/-- C7 (amended): when some chunk's APPEND fails, the error propagates to
`uploadMedia`'s caller, no further chunk is ever scheduled (extending the
trace changes neither the scheduled set nor the recorded failure), and no
chunk is retried (the scheduled segment indices are pairwise distinct —
exactly `0, …, n−1` in order); however the chunks still in flight are
*not* aborted: the client never signals cancellation to them. -/
theorem c7_amended_failure_stops_scheduling (tb cs mc : Nat) (es : List ChunkEvent)
    (c : Chunk) (hcs : 0 < cs)
    (hfail : (runChunkLoop tb cs mc es).failed = some c) :
    appendLoopResult (runChunkLoop tb cs mc es) = .error "APPEND failed"
      ∧ (runChunkLoop tb cs mc es).abortSignaled = false
      ∧ (runChunkLoop tb cs mc es).scheduled.map Chunk.seg
          = List.range (runChunkLoop tb cs mc es).scheduled.length
      ∧ ∀ es2, (runChunkLoop tb cs mc (es ++ es2)).scheduled
            = (runChunkLoop tb cs mc es).scheduled
          ∧ (runChunkLoop tb cs mc (es ++ es2)).failed = some c := by
  obtain ⟨hplan, hoff, hsat, hseg, hmap, habort⟩ := runChunkLoop_inv tb cs mc hcs es
  refine ⟨by simp [appendLoopResult, hfail], habort, hmap, ?_⟩
  intro es2
  have hext : runChunkLoop tb cs mc (es ++ es2)
      = es2.foldl (stepChunk tb cs mc) (runChunkLoop tb cs mc es) := by
    unfold runChunkLoop
    rw [List.foldl_append]
  rw [hext]
  exact foldl_after_failure tb cs mc c es2 _ hfail

/-- Witness for `c7_amended_failure_stops_scheduling` on the concrete
4 MiB run whose first chunk fails. -/
theorem c7_amended_witness :
    appendLoopResult (runChunkLoop 4194304 (appendChunkSize false 4194304)
        (maxConcurrentAppends false 4194304) [.fail 0]) = .error "APPEND failed"
      ∧ (runChunkLoop 4194304 (appendChunkSize false 4194304)
          (maxConcurrentAppends false 4194304) [.fail 0]).abortSignaled = false := by
  have h := c7_amended_failure_stops_scheduling 4194304 (appendChunkSize false 4194304)
    (maxConcurrentAppends false 4194304) [.fail 0] ⟨0, 0, 2097152⟩ (by decide) (by decide)
  exact ⟨h.1, h.2.1⟩
